import Mathlib

/-!
Verification of the attendance backend (FastAPI + SQLAlchemy service).

The embedding models, from the source:
- `models.py`: the `AttendanceRecord` table row.
- `schemas.py`: the pydantic v1 input validation (`AttendanceV1Base`).
- `crud.py`: the four data-access operations over an explicit `Store`
  (the committed state of the single relational table, plus the
  autoincrement counter and the server clock used for `created_at`).
  Persistence failures are injected through an `Option String` argument:
  `some e` means the underlying store raises exception message `e` at the
  commit of the current mutation, `none` means the commit succeeds.
- `routers/attendance_v1.py` and `routers/attendance_v2.py`: the HTTP
  handlers, returning a `Response` and the resulting store.
- `main.py`: the route table actually registered on the application
  (only the v1 router is included; the v2 router is never mounted),
  and the dispatch of a request to a handler or to the framework 404.

Dates are modelled as integers on a timeline; a raw request carries
`timestamp : Option Int`, where `none` stands for a date-time string
that pydantic cannot parse.
-/

namespace SupaBackend

/-- HTTP methods used by the application routes. -/
inductive Method where
  | get
  | post
  | delete
deriving DecidableEq, BEq, Repr

/-- A validated v1 create payload: the fields of `AttendanceV1Create`
(`schemas.py`) after pydantic validation succeeded. -/
structure AttendanceInput where
  student_name : String
  student_id : String
  timestamp : Int
  bluetooth_signal_strength : Option Int
  status : String
deriving DecidableEq, Repr

/-- One row of the `attendance_records` table (`models.py`).
`id` and `created_at` are system-assigned; `updated_at` stays `none`
because no operation ever updates a row. -/
structure AttendanceRecord where
  id : Nat
  student_name : String
  student_id : String
  timestamp : Int
  bluetooth_signal_strength : Option Int
  status : String
  created_at : Int
  updated_at : Option Int
deriving DecidableEq, Repr

/-- The committed state of the record store: the table rows, the
autoincrement counter for `id`, and the server clock that
`func.now()` reads for `created_at`. -/
structure Store where
  records : List AttendanceRecord
  nextId : Nat
  now : Int
deriving DecidableEq, Repr

/-! ## Raw input and validation (`schemas.py`) -/

/-- A raw v1 create request body, before validation. `timestamp = none`
models a value pydantic cannot parse as a date-time. -/
structure RawInput where
  student_name : String
  student_id : String
  timestamp : Option Int
  bluetooth_signal_strength : Option Int
  status : String
deriving DecidableEq, Repr

/-- The `status` pattern of `AttendanceV1Base`: exactly `present`,
`absent` or `late`. -/
def validStatus (s : String) : Bool :=
  s == "present" || s == "absent" || s == "late"

/-- Whether an optional `bluetooth_signal_strength` violates the
`ge=-100, le=0` bounds of `AttendanceV1Base`. -/
def bssOutOfRange : Option Int → Bool
  | none => false
  | some v => v < -100 || 0 < v

/-- Pydantic validation of `AttendanceV1Create`: field length bounds,
date-time parseability, signal-strength range and the status pattern.
On success it returns the validated payload; on failure a field-level
error message. Extra fields are ignored by the schema and therefore
not part of `RawInput`. -/
def validateAttendanceV1Create (raw : RawInput) : Except String AttendanceInput :=
  if raw.student_name.length < 1 || 100 < raw.student_name.length then
    .error "student_name: string length must be between 1 and 100"
  else if raw.student_id.length < 1 || 50 < raw.student_id.length then
    .error "student_id: string length must be between 1 and 50"
  else
    match raw.timestamp with
    | none => .error "timestamp: value is not a valid datetime"
    | some t =>
      if bssOutOfRange raw.bluetooth_signal_strength then
        .error "bluetooth_signal_strength: value must be between -100 and 0"
      else if validStatus raw.status then
        .ok { student_name := raw.student_name
              student_id := raw.student_id
              timestamp := t
              bluetooth_signal_strength := raw.bluetooth_signal_strength
              status := raw.status }
      else
        .error "status: string must match present, absent or late"

/-! ## Data access layer (`crud.py`) -/

namespace crud

/-- The row constructed by `create_attendance_record` before the commit:
fields copied verbatim from the validated payload, `id` from the
autoincrement counter and `created_at` from the server clock. -/
def buildRecord (db : Store) (a : AttendanceInput) : AttendanceRecord :=
  { id := db.nextId
    student_name := a.student_name
    student_id := a.student_id
    timestamp := a.timestamp
    bluetooth_signal_strength := a.bluetooth_signal_strength
    status := a.status
    created_at := db.now
    updated_at := none }

/-- `create_attendance_record` in `crud.py`: add the new row and commit.
When the commit raises (`fail = some e`), the session is rolled back and
the exception re-raised, so the committed store is unchanged and the
error propagates. -/
def create_attendance_record (db : Store) (a : AttendanceInput)
    (fail : Option String) : Store × Except String AttendanceRecord :=
  let row := buildRecord db a
  match fail with
  | some e => (db, .error e)
  | none =>
    ({ db with records := db.records ++ [row], nextId := db.nextId + 1 },
     .ok row)

/-- Python truthiness of the `student_id` argument in
`if student_id:`: false for `None` and for the empty string. -/
def sidTruthy : Option String → Bool
  | none => false
  | some s => s != ""

/-- The `query.filter(AttendanceRecord.student_id == student_id)` step,
applied only when `if student_id:` is taken. -/
def applyStudentFilter (sid : Option String) (rs : List AttendanceRecord) :
    List AttendanceRecord :=
  match sid with
  | some s => if s != "" then rs.filter (fun r => r.student_id == s) else rs
  | none => rs

/-- Insert a record into a list kept sorted by `timestamp` descending. -/
def insertDesc (r : AttendanceRecord) :
    List AttendanceRecord → List AttendanceRecord
  | [] => [r]
  | x :: xs =>
    if x.timestamp ≤ r.timestamp then r :: x :: xs else x :: insertDesc r xs

/-- The `order_by(desc(AttendanceRecord.timestamp))` step: a
deterministic sort by `timestamp` descending (the relative order of
equal timestamps is unspecified by SQL; this model fixes one). -/
def sortByTimestampDesc : List AttendanceRecord → List AttendanceRecord
  | [] => []
  | x :: xs => insertDesc x (sortByTimestampDesc xs)

/-- `get_attendance_records` in `crud.py`: optional student filter,
order by timestamp descending, then `offset(skip).limit(limit)`. -/
def get_attendance_records (db : Store) (skip : Nat) (limit : Nat)
    (student_id : Option String) : List AttendanceRecord :=
  (((sortByTimestampDesc (applyStudentFilter student_id db.records)).drop
    skip).take limit)

/-- `get_attendance_by_id` in `crud.py`:
`query.filter(AttendanceRecord.id == record_id).first()`. -/
def get_attendance_by_id (db : Store) (record_id : Nat) :
    Option AttendanceRecord :=
  db.records.find? (fun r => r.id == record_id)

/-- `get_total_count` in `crud.py`: the count of the optionally
filtered query, with no pagination. -/
def get_total_count (db : Store) (student_id : Option String) : Nat :=
  (applyStudentFilter student_id db.records).length

/-- `delete_attendance_record` in `crud.py`: look the row up; if found,
delete it and commit, returning `true`; otherwise return `false`. A
commit failure (`fail = some e`) leaves the committed store unchanged
and the exception propagates to the caller. -/
def delete_attendance_record (db : Store) (record_id : Nat)
    (fail : Option String) : Store × Except String Bool :=
  match get_attendance_by_id db record_id with
  | some _ =>
    match fail with
    | some e => (db, .error e)
    | none =>
      ({ db with records := db.records.eraseP (fun r => r.id == record_id) },
       .ok true)
  | none => (db, .ok false)

end crud

/-! ## HTTP responses and the v1 handlers (`routers/attendance_v1.py`) -/

/-- An HTTP response of the application: a status code together with a
message body, a single record, or a paginated listing. -/
inductive Response where
  | msg (status : Nat) (message : String)
  | record (status : Nat) (r : AttendanceRecord)
  | listing (status : Nat) (total : Nat) (records : List AttendanceRecord)
deriving DecidableEq, Repr

/-- The status code of a response. -/
def Response.status : Response → Nat
  | .msg s _ => s
  | .record s _ => s
  | .listing s _ _ => s

namespace attendance_v1

/-- The POST handler `create_attendance`: pydantic validation happens
before the handler runs (422 on violation, the data access layer is
never reached); on success the handler calls
`crud.create_attendance_record` and returns 201 with the fixed message;
a store exception is mapped to a 500 whose detail embeds the exception
text. -/
def create_attendance (raw : RawInput) (db : Store) (fail : Option String) :
    Response × Store :=
  match validateAttendanceV1Create raw with
  | .error e => (.msg 422 e, db)
  | .ok a =>
    match crud.create_attendance_record db a fail with
    | (db2, .ok _) =>
      (.msg 201 "Attendance record stored successfully", db2)
    | (db2, .error e) =>
      (.msg 500 ("Failed to store attendance record: " ++ e), db2)

/-- The GET list handler `get_attendance_list`: FastAPI rejects
out-of-range query parameters (`skip ≥ 0`, `1 ≤ limit ≤ 500`) with 422
before the handler runs; otherwise the handler returns the page and the
total count. -/
def get_attendance_list (db : Store) (skip : Int) (limit : Int)
    (student_id : Option String) : Response × Store :=
  if skip < 0 || limit < 1 || 500 < limit then
    (.msg 422 "query parameter out of range", db)
  else
    (.listing 200 (crud.get_total_count db student_id)
      (crud.get_attendance_records db skip.toNat limit.toNat student_id),
     db)

/-- The GET-by-id handler `get_attendance_by_id`: 200 with the record,
or 404 naming the missing id. -/
def get_attendance_by_id (db : Store) (record_id : Nat) :
    Response × Store :=
  match crud.get_attendance_by_id db record_id with
  | some r => (.record 200 r, db)
  | none =>
    (.msg 404 ("Attendance record with ID " ++ toString record_id ++
      " not found"), db)

/-- The DELETE handler `delete_attendance`: 200 with the fixed message
when a row was removed, 404 naming the id otherwise; a store exception
is mapped to a 500 whose detail embeds the exception text. -/
def delete_attendance (db : Store) (record_id : Nat)
    (fail : Option String) : Response × Store :=
  match crud.delete_attendance_record db record_id fail with
  | (db2, .ok true) =>
    (.msg 200 "Attendance record deleted successfully", db2)
  | (db2, .ok false) =>
    (.msg 404 ("Attendance record with ID " ++ toString record_id ++
      " not found"), db2)
  | (db2, .error e) =>
    (.msg 500 ("Failed to delete attendance record: " ++ e), db2)

end attendance_v1

/-! ## The v2 handlers (`routers/attendance_v2.py`) -/

namespace attendance_v2

/-- The fixed detail of every v2 handler. -/
def notImplementedDetail : String :=
  "API version 2 is not yet implemented. Please use /api/v1/attendance/"

/-- The v2 POST handler `create_attendance_v2`: unconditionally raises
HTTP 501 with the fixed detail; the store is untouched. -/
def create_attendance_v2 (db : Store) : Response × Store :=
  (.msg 501 notImplementedDetail, db)

/-- The v2 GET handler `get_attendance_list_v2`: unconditionally raises
HTTP 501 with the fixed detail; the store is untouched. -/
def get_attendance_list_v2 (db : Store) : Response × Store :=
  (.msg 501 notImplementedDetail, db)

end attendance_v2

/-! ## Application routing (`main.py`)

`main.py` registers only the v1 router (under the `/api/v1` path) plus
the two health endpoints. The v2 router exists in the sources but no
`include_router` call mounts it; the comment at the end of
`routers/attendance_v2.py` lists mounting it as a future step. -/

/-- One segment of a route template: a literal, or a path parameter
(which matches any non-empty segment). -/
inductive Seg where
  | lit (s : String)
  | param
deriving DecidableEq, Repr

/-- Whether one template segment matches one path segment. -/
def segMatches : Seg → String → Bool
  | .lit t, s => t == s
  | .param, s => s != ""

/-- Whether a route template matches a request path (given as the list
of segments after the leading slash; a trailing slash contributes a
final empty segment). -/
def pathMatches (template : List Seg) (path : List String) : Bool :=
  template.length == path.length &&
    (template.zip path).all (fun ts => segMatches ts.1 ts.2)

/-- The handlers registered on the application. -/
inductive RouteId where
  | v1Create
  | v1List
  | v1GetById
  | v1Delete
  | root
  | health
deriving DecidableEq, Repr

/-- The route table built by `main.py`: the v1 router under `/api/v1`,
and the two process-level endpoints. No `/api/v2` route is registered. -/
def appRouteTable : List (Method × List Seg × RouteId) :=
  [ (.post, [.lit "api", .lit "v1", .lit "attendance", .lit ""], .v1Create),
    (.get, [.lit "api", .lit "v1", .lit "attendance", .lit ""], .v1List),
    (.get, [.lit "api", .lit "v1", .lit "attendance", .param], .v1GetById),
    (.delete, [.lit "api", .lit "v1", .lit "attendance", .param], .v1Delete),
    (.get, [.lit ""], .root),
    (.get, [.lit "api", .lit "health"], .health) ]

/-- Resolve a method and path against the registered routes. -/
def findRoute (m : Method) (path : List String) : Option RouteId :=
  (appRouteTable.find? (fun row => row.1 == m && pathMatches row.2.1 path)).map
    (fun row => row.2.2)

/-- An incoming HTTP request: method, path segments, JSON body (used by
the create routes) and the list query parameters. -/
structure Request where
  method : Method
  path : List String
  body : RawInput
  skip : Int
  limit : Int
  student_id : Option String
deriving Repr

/-- The integer path parameter of the by-id routes: the final path
segment parsed as a number (FastAPI rejects a non-integer segment with
422 before the handler runs). -/
def pathRecordId (path : List String) : Option Nat :=
  path.getLast? >>= String.toNat?

/-- Dispatch one request on the application: resolve the route and run
the registered handler; a request matching no registered route gets the
framework 404 response and the store is untouched. -/
def appHandle (req : Request) (db : Store) (fail : Option String) :
    Response × Store :=
  match findRoute req.method req.path with
  | none => (.msg 404 "Not Found", db)
  | some .v1Create => attendance_v1.create_attendance req.body db fail
  | some .v1List =>
    attendance_v1.get_attendance_list db req.skip req.limit req.student_id
  | some .v1GetById =>
    match pathRecordId req.path with
    | some rid => attendance_v1.get_attendance_by_id db rid
    | none => (.msg 422 "path parameter record_id must be an integer", db)
  | some .v1Delete =>
    match pathRecordId req.path with
    | some rid => attendance_v1.delete_attendance db rid fail
    | none => (.msg 422 "path parameter record_id must be an integer", db)
  | some .root => (.msg 200 "Mobile Attendance System API", db)
  | some .health => (.msg 200 "healthy", db)

/-! ## Claim-level predicates and concrete data -/

/-- Whether a record matches the optional `student_id` filter, under the
truthiness semantics of `if student_id:` in `crud.py`: `none` and the
empty string match every record. -/
def recordMatches (sid : Option String) (r : AttendanceRecord) : Bool :=
  match sid with
  | some s => if s != "" then r.student_id == s else true
  | none => true

/-- A create payload violating at least one field constraint of
`AttendanceV1Base`: empty or over-long `student_name` or `student_id`,
an unparseable `timestamp`, a present `bluetooth_signal_strength`
outside `[-100, 0]`, or a `status` not among the three allowed words. -/
def violatesV1Constraint (raw : RawInput) : Prop :=
  raw.student_name.length = 0 ∨ 100 < raw.student_name.length ∨
  raw.student_id.length = 0 ∨ 50 < raw.student_id.length ∨
  raw.timestamp = none ∨
  (∃ v, raw.bluetooth_signal_strength = some v ∧ (v < -100 ∨ 0 < v)) ∨
  (raw.status ≠ "present" ∧ raw.status ≠ "absent" ∧ raw.status ≠ "late")

/-- A fresh store, as created by `Base.metadata.create_all`: no rows,
autoincrement counter at 1. -/
def emptyStore : Store := { records := [], nextId := 1, now := 0 }

/-- The documented example payload of `AttendanceV1Create`. -/
def sampleRaw : RawInput :=
  { student_name := "John Doe"
    student_id := "STU123"
    timestamp := some 100
    bluetooth_signal_strength := some (-45)
    status := "present" }

/-- The validated form of `sampleRaw`. -/
def sampleInput : AttendanceInput :=
  { student_name := "John Doe"
    student_id := "STU123"
    timestamp := 100
    bluetooth_signal_strength := some (-45)
    status := "present" }

/-- The example payload with a `bluetooth_signal_strength` above the
allowed range. -/
def badRaw : RawInput :=
  { sampleRaw with bluetooth_signal_strength := some 5 }

/-- A stored row for the example student. -/
def rec1 : AttendanceRecord :=
  { id := 1
    student_name := "John Doe"
    student_id := "STU123"
    timestamp := 100
    bluetooth_signal_strength := some (-45)
    status := "present"
    created_at := 5
    updated_at := none }

/-- A second stored row, for another student and a later timestamp. -/
def rec2 : AttendanceRecord :=
  { id := 2
    student_name := "Jane Roe"
    student_id := "STU456"
    timestamp := 200
    bluetooth_signal_strength := none
    status := "late"
    created_at := 6
    updated_at := none }

/-- A store holding exactly `rec1`. -/
def store1 : Store := { records := [rec1], nextId := 2, now := 5 }

/-- A store holding `rec1` and `rec2`. -/
def store2 : Store := { records := [rec1, rec2], nextId := 3, now := 7 }

/-- A POST request to the unmounted v2 path. -/
def v2PostReq : Request :=
  { method := .post
    path := ["api", "v2", "attendance", ""]
    body := sampleRaw
    skip := 0
    limit := 100
    student_id := none }

/-- A GET request to the unmounted v2 path. -/
def v2GetReq : Request :=
  { method := .get
    path := ["api", "v2", "attendance", ""]
    body := sampleRaw
    skip := 0
    limit := 100
    student_id := none }

/-! ## Helper lemmas -/

theorem insertDesc_perm (r : AttendanceRecord) (l : List AttendanceRecord) :
    (crud.insertDesc r l).Perm (r :: l) := by
  induction l with
  | nil => simp [crud.insertDesc]
  | cons x xs ih =>
    simp only [crud.insertDesc]
    split
    · exact List.Perm.refl _
    · exact (ih.cons x).trans (List.Perm.swap r x xs)

theorem sortByTimestampDesc_perm (l : List AttendanceRecord) :
    (crud.sortByTimestampDesc l).Perm l := by
  induction l with
  | nil => simp [crud.sortByTimestampDesc]
  | cons x xs ih =>
    exact (insertDesc_perm x (crud.sortByTimestampDesc xs)).trans (ih.cons x)

theorem pairwise_insertDesc (r : AttendanceRecord) (l : List AttendanceRecord)
    (h : l.Pairwise (fun a b => b.timestamp ≤ a.timestamp)) :
    (crud.insertDesc r l).Pairwise (fun a b => b.timestamp ≤ a.timestamp) := by
  induction l with
  | nil => simp [crud.insertDesc]
  | cons x xs ih =>
    rw [List.pairwise_cons] at h
    obtain ⟨hx, hxs⟩ := h
    simp only [crud.insertDesc]
    split
    · rename_i hle
      refine List.pairwise_cons.mpr ⟨?_, List.pairwise_cons.mpr ⟨hx, hxs⟩⟩
      intro b hb
      rcases List.mem_cons.mp hb with hbx | hbxs
      · simpa [hbx] using hle
      · exact le_trans (hx b hbxs) hle
    · rename_i hgt
      refine List.pairwise_cons.mpr ⟨?_, ih hxs⟩
      intro b hb
      rcases List.mem_cons.mp ((insertDesc_perm r xs).mem_iff.mp hb) with hbr | hbxs
      · simpa [hbr] using le_of_not_le hgt
      · exact hx b hbxs

theorem pairwise_sortByTimestampDesc (l : List AttendanceRecord) :
    (crud.sortByTimestampDesc l).Pairwise
      (fun a b => b.timestamp ≤ a.timestamp) := by
  induction l with
  | nil => simp [crud.sortByTimestampDesc]
  | cons x xs ih => exact pairwise_insertDesc x _ ih

theorem applyStudentFilter_eq_filter (sid : Option String)
    (rs : List AttendanceRecord) :
    crud.applyStudentFilter sid rs = rs.filter (recordMatches sid) := by
  cases sid with
  | none => exact (List.filter_eq_self.mpr (fun a _ => rfl)).symm
  | some s =>
    by_cases h : s = ""
    · subst h
      have hA : crud.applyStudentFilter (some "") rs = rs := by
        simp [crud.applyStudentFilter]
      rw [hA]
      exact (List.filter_eq_self.mpr (fun a _ => rfl)).symm
    · have hA : crud.applyStudentFilter (some s) rs =
          rs.filter (fun r => r.student_id == s) := by
        simp [crud.applyStudentFilter, h]
      rw [hA]
      exact List.filter_congr (fun a _ => by simp [recordMatches, h])

theorem find?_append_none {p : AttendanceRecord → Bool}
    {l1 l2 : List AttendanceRecord} (h : ∀ x ∈ l1, ¬p x = true) :
    List.find? p (l1 ++ l2) = List.find? p l2 := by
  rw [List.find?_append, List.find?_eq_none.mpr h, Option.none_or]

theorem validate_ok_fields {raw : RawInput} {a : AttendanceInput}
    (h : validateAttendanceV1Create raw = .ok a) :
    a.student_name = raw.student_name ∧ a.student_id = raw.student_id ∧
    raw.timestamp = some a.timestamp ∧
    a.bluetooth_signal_strength = raw.bluetooth_signal_strength ∧
    a.status = raw.status := by
  unfold validateAttendanceV1Create at h
  split at h
  · simp at h
  · split at h
    · simp at h
    · split at h
      · simp at h
      · rename_i t ht
        split at h
        · simp at h
        · split at h
          · obtain rfl := (Except.ok.injEq _ _).mp h.symm
            exact ⟨rfl, rfl, ht, rfl, rfl⟩
          · simp at h

theorem validate_ok_constraints {raw : RawInput} {a : AttendanceInput}
    (h : validateAttendanceV1Create raw = .ok a) :
    1 ≤ raw.student_name.length ∧ raw.student_name.length ≤ 100 ∧
    1 ≤ raw.student_id.length ∧ raw.student_id.length ≤ 50 ∧
    raw.timestamp ≠ none ∧
    bssOutOfRange raw.bluetooth_signal_strength = false ∧
    validStatus raw.status = true := by
  unfold validateAttendanceV1Create at h
  split at h
  · simp at h
  · rename_i hname
    split at h
    · simp at h
    · rename_i hid
      split at h
      · simp at h
      · rename_i t ht
        split at h
        · simp at h
        · rename_i hbss
          split at h
          · rename_i hstatus
            simp only [Bool.or_eq_true, decide_eq_true_eq, not_or,
              not_lt] at hname hid
            refine ⟨?_, ?_, ?_, ?_, by simp [ht], by simpa using hbss,
              hstatus⟩
            · omega
            · omega
            · omega
            · omega
          · simp at h

theorem eraseP_id_eq_filter (rid : Nat) (l : List AttendanceRecord)
    (h : (l.map (fun r => r.id)).Nodup) :
    l.eraseP (fun r => r.id == rid) = l.filter (fun r => r.id != rid) := by
  induction l with
  | nil => rfl
  | cons x xs ih =>
    rw [List.map_cons, List.nodup_cons] at h
    obtain ⟨hx, hxs⟩ := h
    by_cases hxr : x.id = rid
    · rw [List.eraseP_cons_of_pos (by simp [hxr]),
        List.filter_cons_of_neg (by simp [hxr])]
      symm
      rw [List.filter_eq_self]
      intro r hr
      have hne : r.id ≠ rid := by
        intro hc
        apply hx
        rw [hxr, ← hc]
        exact List.mem_map_of_mem _ hr
      simpa using hne
    · rw [List.eraseP_cons_of_neg (by simp [hxr]),
        List.filter_cons_of_pos (by simp [hxr]), ih hxs]

/-! ## Claims -/

/-- C1: for every store whose rows all have ids below the autoincrement
counter, and every create payload accepted by v1 validation, a create
followed by `get_attendance_by_id` on the assigned id returns exactly the
stored row: `student_name`, `student_id`, `timestamp`,
`bluetooth_signal_strength` and `status` equal the input fields, and the
row carries the system-assigned `id` and `created_at` values. -/
theorem create_then_get_roundtrip (db : Store) (raw : RawInput)
    (a : AttendanceInput)
    (hwf : ∀ r ∈ db.records, r.id < db.nextId)
    (hval : validateAttendanceV1Create raw = .ok a) :
    (crud.create_attendance_record db a none).2 =
      .ok (crud.buildRecord db a) ∧
    crud.get_attendance_by_id (crud.create_attendance_record db a none).1
      (crud.buildRecord db a).id = some (crud.buildRecord db a) ∧
    (crud.buildRecord db a).student_name = raw.student_name ∧
    (crud.buildRecord db a).student_id = raw.student_id ∧
    raw.timestamp = some (crud.buildRecord db a).timestamp ∧
    (crud.buildRecord db a).bluetooth_signal_strength =
      raw.bluetooth_signal_strength ∧
    (crud.buildRecord db a).status = raw.status ∧
    (crud.buildRecord db a).id = db.nextId ∧
    (crud.buildRecord db a).created_at = db.now := by
  obtain ⟨h1, h2, h3, h4, h5⟩ := validate_ok_fields hval
  refine ⟨rfl, ?_, h1, h2, by simpa [crud.buildRecord] using h3, h4, h5,
    rfl, rfl⟩
  show List.find? _ (db.records ++ [crud.buildRecord db a]) = _
  rw [find?_append_none ?_]
  · simp [crud.buildRecord, List.find?]
  · intro x hx
    have := hwf x hx
    simp only [crud.buildRecord, beq_iff_eq]
    omega

/-- Witness for C1 at the empty store and the documented example
payload. -/
theorem create_then_get_roundtrip_witness :
    (crud.create_attendance_record emptyStore sampleInput none).2 =
      .ok (crud.buildRecord emptyStore sampleInput) ∧
    crud.get_attendance_by_id
      (crud.create_attendance_record emptyStore sampleInput none).1
      (crud.buildRecord emptyStore sampleInput).id =
      some (crud.buildRecord emptyStore sampleInput) ∧
    (crud.buildRecord emptyStore sampleInput).student_name =
      sampleRaw.student_name ∧
    (crud.buildRecord emptyStore sampleInput).student_id =
      sampleRaw.student_id ∧
    sampleRaw.timestamp =
      some (crud.buildRecord emptyStore sampleInput).timestamp ∧
    (crud.buildRecord emptyStore sampleInput).bluetooth_signal_strength =
      sampleRaw.bluetooth_signal_strength ∧
    (crud.buildRecord emptyStore sampleInput).status = sampleRaw.status ∧
    (crud.buildRecord emptyStore sampleInput).id = emptyStore.nextId ∧
    (crud.buildRecord emptyStore sampleInput).created_at = emptyStore.now :=
  create_then_get_roundtrip emptyStore sampleRaw sampleInput
    (by simp [emptyStore]) (by rfl)

/-- C3 counterexample: the claim says every POST or GET call to
`/api/v2/attendance/` returns 501, but `main.py` never mounts the v2
router, so the application resolves no route there and the framework
answers 404 Not Found. -/
theorem v2_not_routed_counterexample :
    (appHandle v2PostReq store1 none).1.status = 404 ∧
    (appHandle v2PostReq store1 none).1.status ≠ 501 ∧
    (appHandle v2GetReq store1 none).1.status = 404 ∧
    (appHandle v2GetReq store1 none).1.status ≠ 501 ∧
    (appHandle v2PostReq store1 none).2 = store1 ∧
    (appHandle v2GetReq store1 none).2 = store1 := by
  refine ⟨by decide, by decide, by decide, by decide, by decide, by decide⟩

/-- C3 amended: the v2 handler functions themselves always answer 501
with the fixed message directing callers to v1 and never touch the
store; but the v2 router is not included in the application, so no
`/api/v2/attendance/` route is registered and HTTP calls there do not
reach those handlers. -/
theorem v2_stub_behavior (db : Store) :
    attendance_v2.create_attendance_v2 db =
      (.msg 501 attendance_v2.notImplementedDetail, db) ∧
    attendance_v2.get_attendance_list_v2 db =
      (.msg 501 attendance_v2.notImplementedDetail, db) ∧
    attendance_v2.notImplementedDetail =
      "API version 2 is not yet implemented. Please use /api/v1/attendance/" ∧
    findRoute .post ["api", "v2", "attendance", ""] = none ∧
    findRoute .get ["api", "v2", "attendance", ""] = none :=
  ⟨rfl, rfl, rfl, by decide, by decide⟩

/-- C8: `get_attendance_by_id` on an id carried by no stored row returns
the not-found signal `none` (the model is a total function, so the
operation cannot raise), and the v1 handler promotes it to a 404
response whose detail names the missing id. -/
theorem get_by_id_not_found (db : Store) (rid : Nat)
    (h : ∀ r ∈ db.records, r.id ≠ rid) :
    crud.get_attendance_by_id db rid = none ∧
    attendance_v1.get_attendance_by_id db rid =
      (.msg 404 ("Attendance record with ID " ++ toString rid ++
        " not found"), db) := by
  have hn : crud.get_attendance_by_id db rid = none :=
    List.find?_eq_none.mpr (fun x hx => by simpa using h x hx)
  exact ⟨hn, by simp [attendance_v1.get_attendance_by_id, hn]⟩

/-- Witness for C8 at `store1` and the missing id 7. -/
theorem get_by_id_not_found_witness :
    crud.get_attendance_by_id store1 7 = none ∧
    attendance_v1.get_attendance_by_id store1 7 =
      (.msg 404 ("Attendance record with ID " ++ toString 7 ++
        " not found"), store1) :=
  get_by_id_not_found store1 7 (by decide)

/-- C10: supplying the empty string as the `student_id` filter behaves
exactly like supplying no filter, for both the record listing and the
total count, because `if student_id:` in `crud.py` is false for the
empty string. -/
theorem empty_filter_like_none (db : Store) (skip limit : Nat) :
    crud.get_attendance_records db skip limit (some "") =
      crud.get_attendance_records db skip limit none ∧
    crud.get_total_count db (some "") = crud.get_total_count db none := by
  constructor
  · unfold crud.get_attendance_records
    simp [crud.applyStudentFilter]
  · unfold crud.get_total_count
    simp [crud.applyStudentFilter]

/-- C2: for every store, skip and limit in range, the listing returns at
most `limit` records, equal to the timestamp-descending order of the
matching rows offset by `skip` and capped at `limit`, the page is sorted
by `timestamp` descending, and the total counts all matching rows before
pagination. -/
theorem list_pagination (db : Store) (skip limit : Nat)
    (sid : Option String) (h1 : 1 ≤ limit) (h2 : limit ≤ 500) :
    (crud.get_attendance_records db skip limit sid).length ≤ limit ∧
    crud.get_attendance_records db skip limit sid =
      ((crud.sortByTimestampDesc
        (crud.applyStudentFilter sid db.records)).drop skip).take limit ∧
    (crud.get_attendance_records db skip limit sid).Pairwise
      (fun a b => b.timestamp ≤ a.timestamp) ∧
    crud.get_total_count db sid =
      List.countP (recordMatches sid) db.records := by
  refine ⟨?_, rfl, ?_, ?_⟩
  · unfold crud.get_attendance_records
    rw [List.length_take]
    exact min_le_left _ _
  · unfold crud.get_attendance_records
    exact List.Pairwise.sublist
      ((List.take_sublist _ _).trans (List.drop_sublist _ _))
      (pairwise_sortByTimestampDesc _)
  · unfold crud.get_total_count
    rw [applyStudentFilter_eq_filter, List.countP_eq_length_filter]

/-- Witness for C2 at `store2` with `limit = 1 < total = 2`. -/
theorem list_pagination_witness :
    (crud.get_attendance_records store2 0 1 none).length ≤ 1 ∧
    crud.get_attendance_records store2 0 1 none =
      ((crud.sortByTimestampDesc
        (crud.applyStudentFilter none store2.records)).drop 0).take 1 ∧
    (crud.get_attendance_records store2 0 1 none).Pairwise
      (fun a b => b.timestamp ≤ a.timestamp) ∧
    crud.get_total_count store2 none =
      List.countP (recordMatches none) store2.records :=
  list_pagination store2 0 1 none (by decide) (by decide)

/-- C6 counterexample: with the filter supplied as the empty string, the
listing over `store1` returns `rec1`, whose `student_id` is `STU123`
and not the empty string, and the total counts one row although no row
has the empty string as `student_id`; so the claim fails at X = `""`. -/
theorem student_filter_counterexample :
    crud.get_attendance_records store1 0 100 (some "") = [rec1] ∧
    rec1.student_id = "STU123" ∧
    "STU123" ≠ "" ∧
    crud.get_total_count store1 (some "") = 1 ∧
    List.countP (fun r => r.student_id == "") store1.records = 0 :=
  ⟨by decide, rfl, by decide, by decide, by decide⟩

/-- C6 amended: for every store state and every supplied non-empty
filter value X, the listing returns only records whose `student_id`
equals X and the total counts only those; the empty string disables the
filter instead (see C10). -/
theorem student_filter_restricts (db : Store) (x : String)
    (skip limit : Nat) (hx : x ≠ "") :
    (crud.get_attendance_records db skip limit (some x)).all
      (fun r => r.student_id == x) = true ∧
    crud.get_total_count db (some x) =
      List.countP (fun r => r.student_id == x) db.records := by
  have hA : crud.applyStudentFilter (some x) db.records =
      db.records.filter (fun r => r.student_id == x) := by
    simp [crud.applyStudentFilter, hx]
  constructor
  · rw [List.all_eq_true]
    intro r hr
    have hsub : (crud.get_attendance_records db skip limit
        (some x)).Sublist
        (crud.sortByTimestampDesc
          (crud.applyStudentFilter (some x) db.records)) :=
      (List.take_sublist _ _).trans (List.drop_sublist _ _)
    have hmem : r ∈ crud.applyStudentFilter (some x) db.records :=
      (sortByTimestampDesc_perm _).mem_iff.mp (hsub.subset hr)
    rw [hA] at hmem
    exact (List.mem_filter.mp hmem).2
  · unfold crud.get_total_count
    rw [hA, List.countP_eq_length_filter]

/-- Witness for C6 (amended) at `store1` and the filter `STU123`. -/
theorem student_filter_restricts_witness :
    (crud.get_attendance_records store1 0 100 (some "STU123")).all
      (fun r => r.student_id == "STU123") = true ∧
    crud.get_total_count store1 (some "STU123") =
      List.countP (fun r => r.student_id == "STU123") store1.records :=
  student_filter_restricts store1 "STU123" 0 100 (by decide)

/-- C7: on a store whose rows carry pairwise-distinct ids, deleting an
id that is present removes exactly that row (the store becomes the old
rows with the matching one filtered out, one row shorter) and returns
true; deleting the same id again returns false and leaves the store
unchanged; and deleting an id absent from any store is not an error, it
reports false and changes nothing. -/
theorem delete_by_id_spec (db : Store) (rid : Nat) (db2 : Store)
    (rid2 : Nat)
    (hnodup : (db.records.map (fun r => r.id)).Nodup)
    (hmem : rid ∈ db.records.map (fun r => r.id))
    (hmiss : rid2 ∉ db2.records.map (fun r => r.id)) :
    (crud.delete_attendance_record db rid none).2 = .ok true ∧
    (crud.delete_attendance_record db rid none).1.records =
      db.records.filter (fun r => r.id != rid) ∧
    (crud.delete_attendance_record db rid none).1.records.length + 1 =
      db.records.length ∧
    crud.delete_attendance_record
      (crud.delete_attendance_record db rid none).1 rid none =
      ((crud.delete_attendance_record db rid none).1, .ok false) ∧
    crud.delete_attendance_record db2 rid2 none = (db2, .ok false) := by
  obtain ⟨r, hr, hrid⟩ := List.mem_map.mp hmem
  cases hfind : crud.get_attendance_by_id db rid with
  | none =>
    exact absurd (List.find?_eq_none.mp hfind r hr) (by simp [hrid])
  | some r0 =>
    have hdel : crud.delete_attendance_record db rid none =
        ({ db with records :=
            db.records.eraseP (fun r => r.id == rid) }, .ok true) := by
      simp [crud.delete_attendance_record, hfind]
    have hrecords : (crud.delete_attendance_record db rid none).1.records =
        db.records.filter (fun r => r.id != rid) := by
      rw [hdel]
      exact eraseP_id_eq_filter rid db.records hnodup
    refine ⟨by rw [hdel], hrecords, ?_, ?_, ?_⟩
    · rw [hdel]
      have hlen := List.length_eraseP_of_mem hr (p := fun r => r.id == rid)
        (by simp [hrid])
      have hpos := List.length_pos_of_mem hr
      simp only [hlen]
      omega
    · rw [hdel]
      have hfind2 : crud.get_attendance_by_id
          ({ db with records :=
            db.records.eraseP (fun r => r.id == rid) }) rid = none := by
        apply List.find?_eq_none.mpr
        intro x hx
        have hx2 : x ∈ db.records.eraseP (fun r => r.id == rid) := hx
        rw [eraseP_id_eq_filter rid db.records hnodup] at hx2
        have := (List.mem_filter.mp hx2).2
        simpa using this
      simp [crud.delete_attendance_record, hfind2]
    · have hfind3 : crud.get_attendance_by_id db2 rid2 = none := by
        apply List.find?_eq_none.mpr
        intro x hx
        simp only [beq_iff_eq]
        intro hc
        exact hmiss (hc ▸ List.mem_map_of_mem _ hx)
      simp [crud.delete_attendance_record, hfind3]

/-- Witness for C7: delete id 1 from `store1`, then again; delete id 3
from the empty store. -/
theorem delete_by_id_spec_witness :
    (crud.delete_attendance_record store1 1 none).2 = .ok true ∧
    (crud.delete_attendance_record store1 1 none).1.records =
      store1.records.filter (fun r => r.id != 1) ∧
    (crud.delete_attendance_record store1 1 none).1.records.length + 1 =
      store1.records.length ∧
    crud.delete_attendance_record
      (crud.delete_attendance_record store1 1 none).1 1 none =
      ((crud.delete_attendance_record store1 1 none).1, .ok false) ∧
    crud.delete_attendance_record emptyStore 3 none =
      (emptyStore, .ok false) :=
  delete_by_id_spec store1 1 emptyStore 3 (by decide) (by decide)
    (by decide)

/-- C4: when the persistence layer raises during a create or a delete,
the data access layer leaves the committed store unchanged (the partial
change is rolled back) and re-raises the exception, and the v1 handlers
map the failure to a 500 response whose body is a human-readable
message. -/
theorem store_failure_maps_to_500 (db : Store) (raw : RawInput)
    (a : AttendanceInput) (e : String) (rid : Nat)
    (hval : validateAttendanceV1Create raw = .ok a)
    (hfound : crud.get_attendance_by_id db rid ≠ none) :
    crud.create_attendance_record db a (some e) = (db, .error e) ∧
    attendance_v1.create_attendance raw db (some e) =
      (.msg 500 ("Failed to store attendance record: " ++ e), db) ∧
    crud.delete_attendance_record db rid (some e) = (db, .error e) ∧
    attendance_v1.delete_attendance db rid (some e) =
      (.msg 500 ("Failed to delete attendance record: " ++ e), db) := by
  cases hfind : crud.get_attendance_by_id db rid with
  | none => exact absurd hfind hfound
  | some r =>
    refine ⟨rfl, ?_, ?_, ?_⟩
    · simp [attendance_v1.create_attendance, hval,
        crud.create_attendance_record]
    · simp [crud.delete_attendance_record, hfind]
    · simp [attendance_v1.delete_attendance,
        crud.delete_attendance_record, hfind]

/-- Witness for C4 at `store1`, the example payload, and the stored
id 1. -/
theorem store_failure_maps_to_500_witness :
    crud.create_attendance_record store1 sampleInput (some "boom") =
      (store1, .error "boom") ∧
    attendance_v1.create_attendance sampleRaw store1 (some "boom") =
      (.msg 500 ("Failed to store attendance record: " ++ "boom"),
        store1) ∧
    crud.delete_attendance_record store1 1 (some "boom") =
      (store1, .error "boom") ∧
    attendance_v1.delete_attendance store1 1 (some "boom") =
      (.msg 500 ("Failed to delete attendance record: " ++ "boom"),
        store1) :=
  store_failure_maps_to_500 store1 sampleRaw sampleInput "boom" 1
    (by rfl) (by decide)

/-- C5: every create payload violating a v1 field constraint fails
validation, so the handler answers 422 with the store unchanged, and the
outcome is independent of the injected persistence behaviour — the data
access layer is never reached. -/
theorem invalid_create_rejected (raw : RawInput) (db : Store)
    (fail : Option String) (h : violatesV1Constraint raw) :
    (validateAttendanceV1Create raw).toOption = none ∧
    (attendance_v1.create_attendance raw db fail).1.status = 422 ∧
    (attendance_v1.create_attendance raw db fail).2 = db ∧
    attendance_v1.create_attendance raw db fail =
      attendance_v1.create_attendance raw db none := by
  have herr : ∀ a, validateAttendanceV1Create raw ≠ .ok a := by
    intro a ha
    obtain ⟨c1, c2, c3, c4, c5, c6, c7⟩ := validate_ok_constraints ha
    rcases h with h | h | h | h | h | h | h
    · omega
    · omega
    · omega
    · omega
    · exact c5 h
    · obtain ⟨v, hv, hrange⟩ := h
      rw [hv] at c6
      simp [bssOutOfRange] at c6
      rcases hrange with h1 | h1
      · omega
      · omega
    · obtain ⟨n1, n2, n3⟩ := h
      simp [validStatus, n1, n2, n3] at c7
  cases hv : validateAttendanceV1Create raw with
  | ok a => exact absurd hv (herr a)
  | error e =>
    refine ⟨by simp [hv, Except.toOption], ?_, ?_, ?_⟩ <;>
      simp [attendance_v1.create_attendance, hv, Response.status]

/-- Witness for C5 at a payload whose signal strength is 5 dBm, above
the allowed range. -/
theorem invalid_create_rejected_witness :
    (validateAttendanceV1Create badRaw).toOption = none ∧
    (attendance_v1.create_attendance badRaw store1 none).1.status = 422 ∧
    (attendance_v1.create_attendance badRaw store1 none).2 = store1 ∧
    attendance_v1.create_attendance badRaw store1 none =
      attendance_v1.create_attendance badRaw store1 none :=
  invalid_create_rejected badRaw store1 none
    (Or.inr (Or.inr (Or.inr (Or.inr (Or.inr (Or.inl
      ⟨5, rfl, Or.inr (by decide)⟩))))))

/-- C9: two creates whose validated payloads share `student_id` and
`timestamp` are both accepted (both handlers answer 201) and are stored
as two distinct rows with distinct ids appended to the store; no
uniqueness constraint over the pair causes a rejection. -/
theorem duplicate_creates_accepted (db : Store) (raw1 raw2 : RawInput)
    (a1 a2 : AttendanceInput)
    (hval1 : validateAttendanceV1Create raw1 = .ok a1)
    (hval2 : validateAttendanceV1Create raw2 = .ok a2)
    (hsid : a1.student_id = a2.student_id)
    (hts : a1.timestamp = a2.timestamp) :
    (crud.create_attendance_record db a1 none).2 =
      .ok (crud.buildRecord db a1) ∧
    (crud.create_attendance_record
      (crud.create_attendance_record db a1 none).1 a2 none).2 =
      .ok (crud.buildRecord
        (crud.create_attendance_record db a1 none).1 a2) ∧
    (crud.buildRecord db a1).student_id =
      (crud.buildRecord
        (crud.create_attendance_record db a1 none).1 a2).student_id ∧
    (crud.buildRecord db a1).timestamp =
      (crud.buildRecord
        (crud.create_attendance_record db a1 none).1 a2).timestamp ∧
    (crud.buildRecord db a1).id ≠
      (crud.buildRecord
        (crud.create_attendance_record db a1 none).1 a2).id ∧
    (crud.create_attendance_record
      (crud.create_attendance_record db a1 none).1 a2 none).1.records =
      db.records ++ [crud.buildRecord db a1,
        crud.buildRecord (crud.create_attendance_record db a1 none).1 a2] ∧
    (attendance_v1.create_attendance raw1 db none).1.status = 201 ∧
    (attendance_v1.create_attendance raw2
      (attendance_v1.create_attendance raw1 db none).2 none).1.status =
      201 := by
  refine ⟨rfl, rfl, by simp [crud.buildRecord, hsid],
    by simp [crud.buildRecord, hts], ?_, ?_, ?_, ?_⟩
  · show db.nextId ≠ _
    simp [crud.create_attendance_record, crud.buildRecord]
  · show (db.records ++ [crud.buildRecord db a1]) ++ [_] = _
    simp [crud.create_attendance_record]
  · simp [attendance_v1.create_attendance, hval1,
      crud.create_attendance_record, Response.status]
  · simp [attendance_v1.create_attendance, hval1, hval2,
      crud.create_attendance_record, Response.status]

/-- Witness for C9: the example payload submitted twice on the empty
store. -/
theorem duplicate_creates_accepted_witness :
    (crud.create_attendance_record emptyStore sampleInput none).2 =
      .ok (crud.buildRecord emptyStore sampleInput) ∧
    (crud.create_attendance_record
      (crud.create_attendance_record emptyStore sampleInput none).1
      sampleInput none).2 =
      .ok (crud.buildRecord
        (crud.create_attendance_record emptyStore sampleInput none).1
        sampleInput) ∧
    (crud.buildRecord emptyStore sampleInput).student_id =
      (crud.buildRecord
        (crud.create_attendance_record emptyStore sampleInput none).1
        sampleInput).student_id ∧
    (crud.buildRecord emptyStore sampleInput).timestamp =
      (crud.buildRecord
        (crud.create_attendance_record emptyStore sampleInput none).1
        sampleInput).timestamp ∧
    (crud.buildRecord emptyStore sampleInput).id ≠
      (crud.buildRecord
        (crud.create_attendance_record emptyStore sampleInput none).1
        sampleInput).id ∧
    (crud.create_attendance_record
      (crud.create_attendance_record emptyStore sampleInput none).1
      sampleInput none).1.records =
      emptyStore.records ++ [crud.buildRecord emptyStore sampleInput,
        crud.buildRecord
          (crud.create_attendance_record emptyStore sampleInput none).1
          sampleInput] ∧
    (attendance_v1.create_attendance sampleRaw emptyStore none).1.status =
      201 ∧
    (attendance_v1.create_attendance sampleRaw
      (attendance_v1.create_attendance sampleRaw emptyStore none).2
      none).1.status = 201 :=
  duplicate_creates_accepted emptyStore sampleRaw sampleRaw sampleInput
    sampleInput (by rfl) (by rfl) rfl rfl

end SupaBackend
